import Mathlib

/-!
Shallow embedding of the Vulnerability Scoring Engine of the adence-ai
repository (src/src/lib/onet-processor.ts and
src/src/lib/enhanced-assessment-engine.ts), together with proofs of the
specification claims about it.

Conventions of the embedding:
* JavaScript numbers are modelled as exact rationals (ℚ); all constants in
  the source are decimal literals and the operations used are +, -, *, /,
  min, max and Math.round, so the rational semantics coincides with the
  ideal real-number semantics the spec describes.
* Math.round is modelled by Mathlib round (round half towards +infinity,
  exactly the JavaScript behaviour).
* JavaScript String.prototype.includes is substring containment, modelled
  on lists of characters; String.prototype.toLowerCase is a character map.
* A lookup `table[k] || d` in JavaScript yields the default d both when k
  is absent and when the stored value is falsy (0); jsOrQ models this.
-/

namespace Adence

/-- clamp(x, 0, 100) of the spec, i.e. Math.min(100, Math.max(0, x)) of the source. -/
def clampQ (x : ℚ) : ℚ := min 100 (max 0 x)

/-- JavaScript Math.round: round half towards positive infinity. -/
def jsRound (x : ℚ) : ℤ := round x

/-- Does the character list start with the pattern pat. -/
def strStarts (pat text : List Char) : Bool :=
  match pat, text with
  | [], _ => true
  | _ :: _, [] => false
  | a :: as, b :: bs => a == b && strStarts as bs

/-- Does the character list contain pat as a contiguous sublist. -/
def strHas (pat : List Char) : List Char → Bool
  | [] => pat.isEmpty
  | c :: rest => strStarts pat (c :: rest) || strHas pat rest

/-- JavaScript content.includes(sub): is sub a contiguous substring of content. -/
def jsIncludes (content sub : String) : Bool :=
  strHas sub.toList content.toList

/-- JavaScript s.toLowerCase (ASCII letters, the only ones used by the source). -/
def jsToLower (s : String) : String := String.mk (s.toList.map Char.toLower)

/-- JavaScript s.toLowerCase as a character list. -/
def lowerStr (s : String) : List Char := s.toList.map Char.toLower

/-- JavaScript s.split(sep) for a one-character separator. -/
def splitOnChar (sep : Char) : List Char → List (List Char)
  | [] => [[]]
  | c :: rest =>
    let r := splitOnChar sep rest
    if c == sep then [] :: r
    else
      match r with
      | [] => [[c]]
      | w :: ws => (c :: w) :: ws

/-- JavaScript `v || d` on an optional numeric table entry: absent or 0 gives d. -/
def jsOrQ (v : Option ℚ) (d : ℚ) : ℚ :=
  match v with
  | none => d
  | some x => if x = 0 then d else x

/-- Risk tiers returned by determineRiskLevel. -/
inductive RiskLevel where
  | low
  | medium
  | high
  | critical
deriving DecidableEq, Repr

/-- Numeric rank of a risk tier, used to state monotonicity. -/
def RiskLevel.rank : RiskLevel → ℕ
  | .low => 0
  | .medium => 1
  | .high => 2
  | .critical => 3

/-- Exact-key lookup in a JavaScript object literal modelled as an association list. -/
def tblLookup {α : Type} (k : String) : List (String × α) → Option α
  | [] => none
  | e :: rest => if e.1 == k then some e.2 else tblLookup k rest

/-- Microsoft Research AI applicability table (AI_APPLICABILITY_SCORES). -/
def AI_APPLICABILITY_SCORES : List (String × ℚ) :=
  [ ("administrative_clerical", 44), ("sales_marketing", 46), ("technical_writing", 38),
    ("data_analysis", 36), ("software_development", 35), ("physical_trades", 2),
    ("healthcare_direct", 2), ("education", 18), ("finance_accounting", 40),
    ("customer_service", 44), ("management", 27), ("creative_design", 30),
    ("legal", 33), ("hr_recruiting", 41), ("research_science", 39) ]

/-- Frey-Osborne task automation probability table (AUTOMATION_PROBABILITIES). -/
def AUTOMATION_PROBABILITIES : List (String × ℚ) :=
  [ ("bookkeeping_accounting", 98), ("data_entry", 99), ("administrative_support", 96),
    ("telemarketing", 99), ("retail_sales", 92), ("customer_service", 85),
    ("technical_writing", 89), ("registered_nurses", 0.9), ("elementary_teachers", 0.4),
    ("software_developers", 4), ("plumbers", 2.1), ("electricians", 1.5),
    ("physicians", 0.4), ("lawyers", 3.5), ("managers", 9) ]

/-- One row of the per-industry adoption table (INDUSTRY_ADOPTION). -/
structure IndustryAdoption where
  current : ℚ
  growth_factor : ℚ
  value_creation : ℚ
  maturity_score : ℚ
deriving DecidableEq, Repr

/-- McKinsey/BCG industry adoption table (INDUSTRY_ADOPTION). -/
def INDUSTRY_ADOPTION : List (String × IndustryAdoption) :=
  [ ("marketing_sales", ⟨0.78, 1.15, 0.22, 0.8⟩),
    ("it_technology", ⟨0.71, 1.15, 0.22, 0.8⟩),
    ("service_operations", ⟨0.65, 1.15, 0.22, 0.6⟩),
    ("manufacturing", ⟨0.45, 1.15, 0.22, 0.6⟩),
    ("healthcare", ⟨0.52, 1.15, 0.22, 0.4⟩),
    ("construction", ⟨0.35, 1.15, 0.22, 0.2⟩),
    ("education", ⟨0.48, 1.15, 0.22, 0.4⟩),
    ("finance", ⟨0.68, 1.15, 0.22, 0.8⟩),
    ("legal", ⟨0.42, 1.15, 0.22, 0.5⟩),
    ("government", ⟨0.38, 1.15, 0.22, 0.3⟩) ]

/-- Education protection factor table (EDUCATION_FACTORS). -/
def EDUCATION_FACTORS : List (String × ℚ) :=
  [ ("no_high_school", 0.00), ("high_school", 0.05), ("some_college", 0.20),
    ("bachelors", 0.70), ("masters_phd", 0.85) ]

/-- Geographic AI readiness factor table (GEOGRAPHIC_FACTORS). -/
def GEOGRAPHIC_FACTORS : List (String × ℚ) :=
  [ ("major_tech_hub", 0.7), ("large_urban", 0.5), ("mid_urban", 0.3),
    ("small_urban", 0.2), ("rural", 0.1) ]

/-- Income protection factor table (INCOME_FACTORS). -/
def INCOME_FACTORS : List (String × ℚ) :=
  [ ("under_30k", 0.1), ("30k_60k", 0.2), ("60k_120k", 0.5), ("over_120k", 0.9) ]

/-- Task composition percentages extracted from the content. -/
structure TaskComposition where
  routine : ℚ
  creative : ℚ
  social : ℚ
  physical : ℚ
  analytical : ℚ
deriving DecidableEq, Repr

/-- Sum of the five task composition components. -/
def TaskComposition.sum (t : TaskComposition) : ℚ :=
  t.routine + t.creative + t.social + t.physical + t.analytical

/-- The three 0-10 skill ratings produced by assessSkills. -/
structure Skills where
  socialIntelligence : ℚ
  creativity : ℚ
  problemSolving : ℚ
deriving DecidableEq, Repr

/-- Feature record produced by extractFeatures. -/
structure FeatureRecord where
  occupationType : String
  industry : String
  education : String
  location : String
  income : String
  taskComposition : TaskComposition
  skills : Skills
  demographicRisk : ℚ
  experienceLevel : String
deriving DecidableEq, Repr

/-- detectOccupationType: first keyword table hit in declared order, default administrative_clerical. -/
def detectOccupationType (content : String) : String :=
  if jsIncludes content "admin" || jsIncludes content "clerical" || jsIncludes content "assistant"
     || jsIncludes content "coordinator" || jsIncludes content "office" then "administrative_clerical"
  else if jsIncludes content "sales" || jsIncludes content "marketing"
     || jsIncludes content "business development" || jsIncludes content "account" then "sales_marketing"
  else if jsIncludes content "developer" || jsIncludes content "programmer" || jsIncludes content "software"
     || jsIncludes content "engineer" || jsIncludes content "coding" then "software_development"
  else if jsIncludes content "customer" || jsIncludes content "support" || jsIncludes content "service"
     || jsIncludes content "help desk" then "customer_service"
  else if jsIncludes content "data" || jsIncludes content "analyst" || jsIncludes content "analytics"
     || jsIncludes content "insights" || jsIncludes content "reporting" then "data_analysis"
  else if jsIncludes content "nurse" || jsIncludes content "doctor" || jsIncludes content "medical"
     || jsIncludes content "patient" || jsIncludes content "healthcare" then "healthcare_direct"
  else if jsIncludes content "plumber" || jsIncludes content "electrician" || jsIncludes content "mechanic"
     || jsIncludes content "construction" || jsIncludes content "carpenter" then "physical_trades"
  else if jsIncludes content "teacher" || jsIncludes content "instructor" || jsIncludes content "professor"
     || jsIncludes content "educator" || jsIncludes content "training" then "education"
  else "administrative_clerical"

/-- detectIndustry: first keyword table hit in declared order, default service_operations. -/
def detectIndustry (content : String) : String :=
  if jsIncludes content "tech" || jsIncludes content "software" || jsIncludes content "it"
     || jsIncludes content "digital" || jsIncludes content "cloud" then "it_technology"
  else if jsIncludes content "health" || jsIncludes content "medical" || jsIncludes content "hospital"
     || jsIncludes content "clinic" || jsIncludes content "patient" then "healthcare"
  else if jsIncludes content "finance" || jsIncludes content "banking" || jsIncludes content "investment"
     || jsIncludes content "accounting" then "finance"
  else if jsIncludes content "education" || jsIncludes content "school" || jsIncludes content "university"
     || jsIncludes content "learning" then "education"
  else if jsIncludes content "manufacturing" || jsIncludes content "production" || jsIncludes content "factory"
     || jsIncludes content "assembly" then "manufacturing"
  else if jsIncludes content "marketing" || jsIncludes content "sales" || jsIncludes content "advertising"
     || jsIncludes content "brand" then "marketing_sales"
  else "service_operations"

/-- detectEducationLevel: keyword chain with default bachelors. -/
def detectEducationLevel (content : String) : String :=
  if jsIncludes content "phd" || jsIncludes content "doctorate" then "masters_phd"
  else if jsIncludes content "master" || jsIncludes content "mba" then "masters_phd"
  else if jsIncludes content "bachelor" || jsIncludes content "degree" then "bachelors"
  else if jsIncludes content "associate" || jsIncludes content "college" then "some_college"
  else if jsIncludes content "high school" || jsIncludes content "diploma" then "high_school"
  else "bachelors"

/-- detectLocationType: city name chain over the lowercased location, default mid_urban. -/
def detectLocationType (location : String) : String :=
  let lower := jsToLower location
  if jsIncludes lower "san francisco" || jsIncludes lower "seattle" || jsIncludes lower "austin" then
    "major_tech_hub"
  else if jsIncludes lower "new york" || jsIncludes lower "los angeles" || jsIncludes lower "chicago" then
    "large_urban"
  else if jsIncludes lower "city" then "mid_urban"
  else if jsIncludes lower "town" then "small_urban"
  else if jsIncludes lower "rural" then "rural"
  else "mid_urban"

/-- estimateIncomeBracket: occupation-based estimate then experience adjustment, default 60k_120k. -/
def estimateIncomeBracket (content : String) (occupationType : String) : String :=
  if occupationType = "software_development" || occupationType = "data_analysis"
     || occupationType = "management" then "over_120k"
  else if occupationType = "customer_service" || occupationType = "administrative_clerical" then "30k_60k"
  else if jsIncludes content "senior" || jsIncludes content "director" then "over_120k"
  else if jsIncludes content "entry" || jsIncludes content "junior" then "30k_60k"
  else "60k_120k"

/-- Raw task composition points accumulated per detected keyword cluster, before normalization. -/
def rawTaskComposition (content : String) : TaskComposition :=
  let routine : ℚ :=
    (if jsIncludes content "repetitive" || jsIncludes content "routine" then 30 else 0)
    + (if jsIncludes content "data entry" || jsIncludes content "filing" then 20 else 0)
  let creative : ℚ :=
    (if jsIncludes content "design" || jsIncludes content "create" then 30 else 0)
    + (if jsIncludes content "innovate" || jsIncludes content "develop" then 20 else 0)
  let social : ℚ :=
    (if jsIncludes content "team" || jsIncludes content "collaborate" then 30 else 0)
    + (if jsIncludes content "customer" || jsIncludes content "client" then 20 else 0)
  let physical : ℚ :=
    (if jsIncludes content "physical" || jsIncludes content "manual" then 40 else 0)
    + (if jsIncludes content "operate" || jsIncludes content "equipment" then 20 else 0)
  let analytical : ℚ :=
    (if jsIncludes content "analyze" || jsIncludes content "research" then 30 else 0)
    + (if jsIncludes content "problem" || jsIncludes content "solve" then 20 else 0)
  ⟨routine, creative, social, physical, analytical⟩

/-- Multiply every component of a task composition by the same factor. -/
def TaskComposition.scale (t : TaskComposition) (k : ℚ) : TaskComposition :=
  ⟨t.routine * k, t.creative * k, t.social * k, t.physical * k, t.analytical * k⟩

/-- analyzeTaskComposition: accumulate keyword points, rescale by 100/total if the total exceeds 100. -/
def analyzeTaskComposition (content : String) : TaskComposition :=
  let raw := rawTaskComposition content
  if raw.sum > 100 then raw.scale (100 / raw.sum) else raw

/-- assessSkills: base rating 5, fixed keyword increments, clamped to 10 by Math.min. -/
def assessSkills (content : String) : Skills :=
  let socialIntelligence : ℚ := 5
    + (if jsIncludes content "leadership" || jsIncludes content "manage" then 2 else 0)
    + (if jsIncludes content "negotiate" || jsIncludes content "communicate" then 1 else 0)
  let creativity : ℚ := 5
    + (if jsIncludes content "creative" || jsIncludes content "innovate" then 2 else 0)
    + (if jsIncludes content "design" || jsIncludes content "develop" then 1 else 0)
  let problemSolving : ℚ := 5
    + (if jsIncludes content "problem" || jsIncludes content "solve" then 2 else 0)
    + (if jsIncludes content "analyze" || jsIncludes content "strategic" then 1 else 0)
  ⟨min 10 socialIntelligence, min 10 creativity, min 10 problemSolving⟩

/-- assessDemographicRisk: base 0.5, multiplied by one age factor when an age indicator matches. -/
def assessDemographicRisk (content : String) : ℚ :=
  let risk : ℚ := 0.5
  if jsIncludes content "recent grad" || jsIncludes content "entry level" then risk * 1.3
  else if jsIncludes content "senior" || jsIncludes content "20+ years" then risk * 1.15
  else risk

/-- detectExperienceLevel: senior/entry keyword chains, default mid. -/
def detectExperienceLevel (content : String) : String :=
  if jsIncludes content "senior" || jsIncludes content "lead" || jsIncludes content "director" then "senior"
  else if jsIncludes content "junior" || jsIncludes content "entry" || jsIncludes content "graduate" then "entry"
  else "mid"

/-- Assessment input: the free-text content and the optional location string. -/
structure AssessmentInput where
  content : String
  location : Option String
deriving DecidableEq, Repr

/-- extractFeatures: lowercase the content and run every detector. -/
def extractFeatures (input : AssessmentInput) : FeatureRecord :=
  let content := jsToLower input.content
  let occupationType := detectOccupationType content
  { occupationType := occupationType
    industry := detectIndustry content
    education := detectEducationLevel content
    location := detectLocationType (input.location.getD "")
    income := estimateIncomeBracket content occupationType
    taskComposition := analyzeTaskComposition content
    skills := assessSkills content
    demographicRisk := assessDemographicRisk content
    experienceLevel := detectExperienceLevel content }

/-- calculateRoutineIndex: three-tier piecewise-linear function of the routine percentage. -/
def calculateRoutineIndex (taskComposition : TaskComposition) : ℚ :=
  let routinePercentage := taskComposition.routine
  if routinePercentage > 60 then 80 + (routinePercentage - 60) * 0.5
  else if routinePercentage > 30 then 40 + (routinePercentage - 30) * 1.33
  else routinePercentage * 1.33

/-- getAutomationProbability: occupation-to-table-key mapping with default administrative_support. -/
def getAutomationProbability (occupationType : String) : ℚ :=
  let key :=
    if occupationType = "administrative_clerical" then "administrative_support"
    else if occupationType = "sales_marketing" then "retail_sales"
    else if occupationType = "software_development" then "software_developers"
    else if occupationType = "customer_service" then "customer_service"
    else if occupationType = "data_analysis" then "bookkeeping_accounting"
    else if occupationType = "healthcare_direct" then "registered_nurses"
    else if occupationType = "physical_trades" then "plumbers"
    else if occupationType = "education" then "elementary_teachers"
    else "administrative_support"
  jsOrQ (tblLookup key AUTOMATION_PROBABILITIES) 50 / 100

/-- Components returned by calculateBaseVulnerability. -/
structure BaseVulnerability where
  total : ℚ
  automation : ℚ
  aiApplicability : ℚ
  routineIndex : ℚ
  physicalRequirement : ℚ
deriving DecidableEq, Repr

/-- calculateBaseVulnerability: 0.4 AI applicability + 0.3 task automation + 0.2 routine + 0.1 physical inverse. -/
def calculateBaseVulnerability (features : FeatureRecord) : BaseVulnerability :=
  let aiApplicability := jsOrQ (tblLookup features.occupationType AI_APPLICABILITY_SCORES) 30
  let automationProb := getAutomationProbability features.occupationType
  let taskAutomation := automationProb * 100
  let routineIndex := calculateRoutineIndex features.taskComposition
  let physicalRequirement := (1 - features.taskComposition.physical / 100) * 100
  { total := 0.4 * aiApplicability + 0.3 * taskAutomation + 0.2 * routineIndex + 0.1 * physicalRequirement
    automation := taskAutomation
    aiApplicability := aiApplicability
    routineIndex := routineIndex
    physicalRequirement := physicalRequirement }

/-- calculateTimeFactor: 1 / (2045 - currentYear + maturity * 5), maturity defaulting to 0.5. -/
def calculateTimeFactor (industry : String) (currentYear : ℤ) : ℚ :=
  let maturityScore := jsOrQ ((tblLookup industry INDUSTRY_ADOPTION).map (·.maturity_score)) 0.5
  let accelerationBonus := maturityScore * 5
  1 / ((2045 : ℚ) - currentYear + accelerationBonus)

/-- calculateAdoptionRate: current * growth_factor * value_creation, with fixed defaults. -/
def calculateAdoptionRate (industry : String) : ℚ :=
  match tblLookup industry INDUSTRY_ADOPTION with
  | none => 0.5 * 1.15 * 0.22
  | some d => d.current * d.growth_factor * d.value_creation

/-- calculateSkillFactor: threshold bands on the three skill ratings, averaged. -/
def calculateSkillFactor (skills : Skills) : ℚ :=
  let f1 : ℚ :=
    if skills.socialIntelligence > 6 then 0.9
    else if skills.socialIntelligence > 4 then 0.5
    else 0.2
  let f2 : ℚ :=
    if skills.creativity > 5.5 then 0.8
    else if skills.creativity > 3.5 then 0.4
    else 0.1
  let f3 : ℚ :=
    if skills.problemSolving > 5 then 0.7
    else if skills.problemSolving > 3 then 0.4
    else 0.2
  (f1 + f2 + f3) / 3

/-- The four protection sub-factors and their weighted total (ProtectionFactors). -/
structure ProtectionFactors where
  education : ℚ
  skill : ℚ
  geographic : ℚ
  income : ℚ
  total : ℚ
deriving DecidableEq, Repr

/-- calculateProtectionScore: education 0.4, skill 0.3, geographic 0.15, income 0.15. -/
def calculateProtectionScore (features : FeatureRecord) : ProtectionFactors :=
  let educationFactor := jsOrQ (tblLookup features.education EDUCATION_FACTORS) 0.2
  let skillFactor := calculateSkillFactor features.skills
  let geographicFactor := jsOrQ (tblLookup features.location GEOGRAPHIC_FACTORS) 0.3
  let incomeFactor := jsOrQ (tblLookup features.income INCOME_FACTORS) 0.3
  { education := educationFactor
    skill := skillFactor
    geographic := geographicFactor
    income := incomeFactor
    total := educationFactor * 0.4 + skillFactor * 0.3 + geographicFactor * 0.15 + incomeFactor * 0.15 }

/-- calculateFinalScore: (base * timeFactor * adoptionRate) * (1 - protection) * 100, clamped to [0, 100]. -/
def calculateFinalScore (baseVulnerability : BaseVulnerability) (timeFactor adoptionRate : ℚ)
    (protectionScore : ProtectionFactors) : ℚ :=
  let rawScore := baseVulnerability.total * timeFactor * adoptionRate * (1 - protectionScore.total)
  let scaledScore := rawScore * 100
  min 100 (max 0 scaledScore)

/-- determineRiskLevel: fixed thresholds 35, 15, 5. -/
def determineRiskLevel (score : ℚ) : RiskLevel :=
  if score ≥ 35 then .critical
  else if score ≥ 15 then .high
  else if score ≥ 5 then .medium
  else .low

/-- One timeline record (TimelinePeriod). -/
structure TimelinePeriod where
  period : String
  likelihood : ℚ
  description : String
  impact : String
deriving DecidableEq, Repr

/-- The three timeline buckets returned by generateTimelineStructure. -/
structure Timeline where
  shortTerm : List TimelinePeriod
  mediumTerm : List TimelinePeriod
  longTerm : List TimelinePeriod
deriving DecidableEq, Repr

/-- generateTimelineStructure: fixed per-tier likelihood constants; the industry argument is unused. -/
def generateTimelineStructure (riskLevel : RiskLevel) (_industry : String) : Timeline :=
  let shortTerm : List TimelinePeriod :=
    [ { period := "6-12 months"
        likelihood := if riskLevel = .critical then 85 else if riskLevel = .high then 65 else 40
        description := "Initial AI tool adoption begins in your role"
        impact := "Workflow adjustments and learning curve" },
      { period := "12-18 months"
        likelihood := if riskLevel = .critical then 90 else if riskLevel = .high then 75 else 50
        description := "AI becomes standard in industry practices"
        impact := "Skill requirements begin shifting" } ]
  let mediumTerm : List TimelinePeriod :=
    [ { period := "2-3 years"
        likelihood := if riskLevel = .critical then 95 else if riskLevel = .high then 85 else 60
        description := "Significant role transformation underway"
        impact := "Major responsibilities evolve or transfer to AI" },
      { period := "3-4 years"
        likelihood := if riskLevel = .critical then 98 else if riskLevel = .high then 90 else 70
        description := "Industry reaches AI integration maturity"
        impact := "New role definitions and career paths emerge" } ]
  let longTerm : List TimelinePeriod :=
    [ { period := "5-7 years"
        likelihood := 95
        description := "Complete human-AI collaboration model established"
        impact := "Fundamental industry transformation complete" } ]
  { shortTerm := shortTerm, mediumTerm := mediumTerm, longTerm := longTerm }

/-- Occupation catalog entry fields used by the matcher (title, description, skills,
knowledge); the remaining fields of the source records (wages, tasks, abilities, ...)
are carried along unchanged into the output and never read by any scored computation. -/
structure OccProfile where
  onetSocCode : String
  title : String
  description : String
  skills : List String
  knowledge : List String
deriving DecidableEq, Repr

/-- Processed occupation as returned by processOccupation / findOccupationMatches:
the profile plus the 0-100 rounded match score. -/
structure ProcessedOcc where
  profile : OccProfile
  matchScore : ℤ
deriving DecidableEq, Repr

/-- First mock catalog entry (generateMockOccupationsData). -/
def csaOccupation : OccProfile :=
  { onetSocCode := "15-1211.00"
    title := "Computer Systems Analysts"
    description := "Analyze science, engineering, business, and other data processing problems to implement and improve computer systems"
    skills := ["Systems Analysis", "Critical Thinking", "Complex Problem Solving", "Programming"]
    knowledge := ["Computers and Electronics", "Mathematics", "Engineering and Technology"] }

/-- Second mock catalog entry. -/
def prOccupation : OccProfile :=
  { onetSocCode := "27-3031.00"
    title := "Public Relations Specialists"
    description := "Promote or create an intended public image for individuals, groups, or organizations"
    skills := ["Writing", "Social Perceptiveness", "Speaking", "Reading Comprehension"]
    knowledge := ["Communications and Media", "English Language", "Customer Service"] }

/-- Third mock catalog entry. -/
def naOccupation : OccProfile :=
  { onetSocCode := "31-1014.00"
    title := "Nursing Assistants"
    description := "Provide basic patient care under direction of nursing staff"
    skills := ["Service Orientation", "Social Perceptiveness", "Monitoring"]
    knowledge := ["Customer Service", "Medicine and Dentistry", "Psychology"] }

/-- The three-entry mock occupation catalog (generateMockOccupationsData). -/
def occupationsData : List OccProfile := [csaOccupation, prOccupation, naOccupation]

/-- The four overlap counts of calculateMatchScore together with the four list sizes
they are divided by. -/
structure MatchCounts where
  titleMatches : ℕ
  titleWordCount : ℕ
  descMatches : ℕ
  descWordCount : ℕ
  skillMatches : ℕ
  skillCount : ℕ
  knowledgeMatches : ℕ
  knowledgeCount : ℕ
deriving DecidableEq, Repr

/-- The word/skill/knowledge overlap counting of calculateMatchScore. The content
argument is already lowercased by the caller, as in the source. -/
def matchCounts (content : List Char) (occupation : OccProfile) : MatchCounts :=
  let titleWords := splitOnChar ' ' (lowerStr occupation.title)
  let titleMatches := (titleWords.filter (fun w => strHas w content)).length
  let descWords := splitOnChar ' ' (lowerStr occupation.description)
  let descMatches := (descWords.filter (fun w => w.length > 3 && strHas w content)).length
  let skillMatches := (occupation.skills.filter (fun sk => strHas (lowerStr sk) content)).length
  let knowledgeMatches := (occupation.knowledge.filter (fun kn => strHas (lowerStr kn) content)).length
  { titleMatches := titleMatches
    titleWordCount := titleWords.length
    descMatches := descMatches
    descWordCount := descWords.length
    skillMatches := skillMatches
    skillCount := occupation.skills.length
    knowledgeMatches := knowledgeMatches
    knowledgeCount := occupation.knowledge.length }

/-- calculateMatchScore: weighted word/skill/knowledge overlaps, clamped to at most 1:
0.3 * title overlap + 0.2 * description overlap (words longer than 3 characters only)
+ 0.3 * skills overlap + 0.2 * knowledge overlap. -/
def calculateMatchScore (content : List Char) (occupation : OccProfile) : ℚ :=
  let c := matchCounts content occupation
  let score : ℚ :=
    (c.titleMatches : ℚ) / (c.titleWordCount : ℚ) * 0.3
    + (c.descMatches : ℚ) / (max 1 c.descWordCount : ℕ) * 0.2
    + (c.skillMatches : ℚ) / (max 1 c.skillCount : ℕ) * 0.3
    + (c.knowledgeMatches : ℚ) / (max 1 c.knowledgeCount : ℕ) * 0.2
  min 1 score

/-- Stable descending insert for the score-sorted match list: an element moves in
front only of strictly smaller scores, exactly the stable sort with the source
comparator (a, b) => b.score - a.score. -/
def insertByScoreDesc (x : OccProfile × ℚ) : List (OccProfile × ℚ) → List (OccProfile × ℚ)
  | [] => [x]
  | y :: ys => if x.2 ≥ y.2 then x :: y :: ys else y :: insertByScoreDesc x ys

/-- Stable descending insertion sort on match scores. -/
def sortByScoreDesc : List (OccProfile × ℚ) → List (OccProfile × ℚ)
  | [] => []
  | x :: xs => insertByScoreDesc x (sortByScoreDesc xs)

/-- findMatchingOccupations before processOccupation: score every catalog entry on the
lowercased content, keep scores above 0.2, sort descending, truncate to limit. -/
def findMatchingScored (content : String) (limit : ℕ) : List (OccProfile × ℚ) :=
  let contentLower := lowerStr content
  let scored := (occupationsData.map (fun o => (o, calculateMatchScore contentLower o))).filter
    (fun m => m.2 > 0.2)
  (sortByScoreDesc scored).take limit

/-- findMatchingOccupations: the scored pipeline followed by processOccupation, which
attaches matchScore = Math.round(score * 100). -/
def findMatchingOccupations (content : String) (limit : ℕ) : List ProcessedOcc :=
  (findMatchingScored content limit).map (fun m => { profile := m.1, matchScore := jsRound (m.2 * 100) })

/-- The in-memory sample table of ValidatedAssessmentEngine.findOccupationMatches
(profile fields plus the hard-coded matchScore of each sample). -/
def occupationSamples : String → List ProcessedOcc := fun k =>
  if k = "administrative_clerical" then
    [ { profile := { onetSocCode := "43-4051"
                     title := "Customer Service Representative"
                     description := "Interact with customers to provide information and resolve complaints"
                     skills := ["Active Listening", "Speaking", "Service Orientation"]
                     knowledge := ["Customer Service", "English Language", "Administration"] }
        matchScore := 88 } ]
  else if k = "software_development" then
    [ { profile := { onetSocCode := "15-1252"
                     title := "Software Developer"
                     description := "Develop, create, and modify general computer applications software"
                     skills := ["Programming", "Critical Thinking", "Complex Problem Solving"]
                     knowledge := ["Computers and Electronics", "Mathematics", "Engineering"] }
        matchScore := 92 } ]
  else if k = "healthcare_direct" then
    [ { profile := { onetSocCode := "29-1141"
                     title := "Registered Nurse"
                     description := "Assess patient health problems and needs, develop and implement nursing care"
                     skills := ["Critical Thinking", "Social Perceptiveness", "Coordination"]
                     knowledge := ["Medicine and Dentistry", "Psychology", "Biology"] }
        matchScore := 90 } ]
  else []

/-- ValidatedAssessmentEngine.findOccupationMatches: pure sample-table lookup keyed by
the extracted occupationType, empty when the key has no sample. -/
def findOccupationMatches (features : FeatureRecord) : List ProcessedOcc :=
  occupationSamples features.occupationType

/-- calculateConfidence: base 70, +5/+5 for non-default education/location, +10 when any
occupation matched, plus maturity * 10, capped at 95. -/
def calculateConfidence (features : FeatureRecord) (occupations : List ProcessedOcc) : ℚ :=
  let confidence : ℚ := 70
    + (if features.education ≠ "bachelors" then 5 else 0)
    + (if features.location ≠ "mid_urban" then 5 else 0)
    + (if occupations.length > 0 then 10 else 0)
    + (match tblLookup features.industry INDUSTRY_ADOPTION with
       | some d => d.maturity_score * 10
       | none => 0)
  min 95 confidence

/-- The four breakdown fields of the vulnerability index, already rounded to integers. -/
structure VulnerabilityBreakdown where
  automation : ℤ
  skillTransfer : ℤ
  geographic : ℤ
  demographic : ℤ
deriving DecidableEq, Repr

/-- VulnerabilityIndex as constructed by assess. -/
structure VulnerabilityIndex where
  overall : ℤ
  breakdown : VulnerabilityBreakdown
  riskLevel : RiskLevel
  timeToImpact : ℤ
  confidence : ℚ
  timeline : Timeline
deriving DecidableEq, Repr

/-- AssessmentResult: the vulnerability index plus the matched occupations. The
recommendations / citations / generatedAt fields of the source result are fixed or
presentation strings not referenced by any claim and are omitted here. -/
structure AssessmentResult where
  vulnerabilityIndex : VulnerabilityIndex
  occupations : List ProcessedOcc
deriving DecidableEq, Repr

/-- ValidatedAssessmentEngine.assess: the full deterministic base pipeline. The current
year (new Date().getFullYear() in the source) is passed explicitly. -/
def assess (input : AssessmentInput) (currentYear : ℤ) : AssessmentResult :=
  let features := extractFeatures input
  let baseVulnerability := calculateBaseVulnerability features
  let timeFactor := calculateTimeFactor features.industry currentYear
  let adoptionRate := calculateAdoptionRate features.industry
  let protectionScore := calculateProtectionScore features
  let aiImpactScore := calculateFinalScore baseVulnerability timeFactor adoptionRate protectionScore
  let riskLevel := determineRiskLevel aiImpactScore
  let timeline := generateTimelineStructure riskLevel features.industry
  let occupationMatches := findOccupationMatches features
  { vulnerabilityIndex :=
      { overall := jsRound aiImpactScore
        breakdown :=
          { automation := jsRound baseVulnerability.automation
            skillTransfer := jsRound (100 - protectionScore.skill * 100)
            geographic := jsRound (100 - protectionScore.geographic * 100)
            demographic := jsRound (features.demographicRisk * 100) }
        riskLevel := riskLevel
        timeToImpact := jsRound (12 / timeFactor)
        confidence := calculateConfidence features occupationMatches
        timeline := timeline }
    occupations := occupationMatches }

/-- One task-specific impact record of AIInsights. -/
structure TaskImpact where
  task : String
  currentMethod : String
  aiMethod : String
  impactPercentage : ℚ
  timeframe : String
  mitigation : String
deriving DecidableEq, Repr

/-- One unique-strength record of AIInsights. -/
structure UniqueStrength where
  strength : String
  whyItMatters : String
  howToLeverage : String
deriving DecidableEq, Repr

/-- The three adaptation-strategy buckets of AIInsights. -/
structure AdaptationStrategies where
  immediate : List String
  shortTerm : List String
  longTerm : List String
deriving DecidableEq, Repr

/-- The industry-context record of AIInsights. The source is untyped JavaScript and
extractStructuredData produces a bare object with none of the three properties, so each
property is optional here; the default generators fill all three. -/
structure IndustryContext where
  trend : Option String
  competitiveAdvantage : Option String
  emergingRoles : Option (List String)
deriving DecidableEq, Repr

/-- One research-citation record of AIInsights. -/
structure Citation where
  finding : String
  source : String
  relevance : String
deriving DecidableEq, Repr

/-- AIInsights: the five top-level fields the Augmentor returns. -/
structure AIInsights where
  taskSpecificImpacts : List TaskImpact
  uniqueStrengths : List UniqueStrength
  adaptationStrategies : AdaptationStrategies
  industryContext : IndustryContext
  researchCitations : List Citation
deriving DecidableEq, Repr

/-- An untyped parsed-JSON insights object: each top-level field may be absent
(undefined in JavaScript, hence falsy), or present with a possibly empty value
(arrays and objects are truthy in JavaScript even when empty). -/
structure PartialInsights where
  taskSpecificImpacts : Option (List TaskImpact)
  uniqueStrengths : Option (List UniqueStrength)
  adaptationStrategies : Option AdaptationStrategies
  industryContext : Option IndustryContext
  researchCitations : Option (List Citation)
deriving DecidableEq, Repr

/-- The detailed resume features consumed by the default generators and the cache key
(extractDetailedFeatures output; the regex extraction itself is a pure function of the
content and is not re-verified here, only consumed). -/
structure DetailedFeatures where
  jobTitle : String
  yearsExperience : ℤ
  managementLevel : String
  technicalSkills : List String
  specificActivities : List String
  certifications : List String
deriving DecidableEq, Repr

/-- generateDefaultTaskImpacts: one fixed record per specific activity (first three). -/
def generateDefaultTaskImpacts (features : DetailedFeatures) : List TaskImpact :=
  (features.specificActivities.take 3).map (fun task =>
    { task := task
      currentMethod := "Manual process"
      aiMethod := "AI-assisted automation"
      impactPercentage := 40
      timeframe := "12-24 months"
      mitigation := "Develop oversight and quality control expertise" })

/-- generateDefaultStrengths: management and experience conditional strengths plus one
unconditional strength. -/
def generateDefaultStrengths (features : DetailedFeatures) : List UniqueStrength :=
  (if features.managementLevel ≠ "individual" then
    [ { strength := "Leadership and team management"
        whyItMatters := "AI cannot replace human leadership and empathy"
        howToLeverage := "Focus on strategic decisions and team development" } ]
   else [])
  ++ (if features.yearsExperience > 5 then
    [ { strength := "Deep domain expertise"
        whyItMatters := "Contextual knowledge AI lacks"
        howToLeverage := "Become AI trainer and quality validator in your domain" } ]
   else [])
  ++ [ { strength := "Human creativity and intuition"
         whyItMatters := "AI follows patterns, humans create new ones"
         howToLeverage := "Focus on innovative problem-solving and creative solutions" } ]

/-- generateDefaultStrategies: fixed lists (the bound risk level is unused in the source). -/
def generateDefaultStrategies (_assessment : AssessmentResult) : AdaptationStrategies :=
  { immediate :=
      [ "Learn to use ChatGPT, Claude, or Copilot for your daily tasks"
        , "Document your unique expertise and decision-making process"
        , "Start building an AI tool portfolio" ]
    shortTerm :=
      [ "Complete AI certification relevant to your field"
        , "Lead an AI pilot project in your organization"
        , "Network with AI professionals in your industry" ]
    longTerm :=
      [ "Position yourself as an AI-human collaboration expert"
        , "Develop new service offerings around AI implementation"
        , "Create intellectual property leveraging AI tools" ] }

/-- generateDefaultContext: fixed record with all three properties present. -/
def generateDefaultContext (_features : DetailedFeatures) : IndustryContext :=
  { trend := some "Rapid AI adoption accelerating across all industries"
    competitiveAdvantage := some "Early adopters gaining 20-30% productivity advantages"
    emergingRoles := some
      [ "AI Implementation Specialist"
        , "Human-AI Collaboration Designer"
        , "AI Ethics and Governance Lead" ] }

/-- generateDefaultCitations: three fixed citations, the first interpolating the overall score. -/
def generateDefaultCitations (assessment : AssessmentResult) : List Citation :=
  [ { finding := toString assessment.vulnerabilityIndex.overall ++ "% AI automation risk"
      source := "Microsoft Research (2024)"
      relevance := "Based on 200,000 AI conversation analysis" }
    , { finding := "33% wage premium for AI-skilled workers"
        source := "PwC AI Jobs Barometer (2025)"
        relevance := "Indicates value of AI upskilling" }
    , { finding := "13% of workforce needs career change by 2030"
        source := "McKinsey Future of Work (2025)"
        relevance := "Timeline for career adaptation" } ]

/-- validateAndEnrichInsights: field || default. In JavaScript an absent (undefined)
field is falsy and gets the default; a present array or object is truthy even when
empty and is kept, which Option.getD models exactly. -/
def validateAndEnrichInsights (insights : PartialInsights) (features : DetailedFeatures)
    (assessment : AssessmentResult) : AIInsights :=
  { taskSpecificImpacts := insights.taskSpecificImpacts.getD (generateDefaultTaskImpacts features)
    uniqueStrengths := insights.uniqueStrengths.getD (generateDefaultStrengths features)
    adaptationStrategies := insights.adaptationStrategies.getD (generateDefaultStrategies assessment)
    industryContext := insights.industryContext.getD (generateDefaultContext features)
    researchCitations := insights.researchCitations.getD (generateDefaultCitations assessment) }

/-- generateFallbackInsights: the fully synthesized insights used when the external
call throws. -/
def generateFallbackInsights (features : DetailedFeatures) (assessment : AssessmentResult) : AIInsights :=
  { taskSpecificImpacts := generateDefaultTaskImpacts features
    uniqueStrengths := generateDefaultStrengths features
    adaptationStrategies := generateDefaultStrategies assessment
    industryContext := generateDefaultContext features
    researchCitations := generateDefaultCitations assessment }

/-- Whitespace class of the \s regex escapes used by the source patterns. -/
def isJsSpace (c : Char) : Bool :=
  c == ' ' || c == '\t' || c == '\n' || c == '\r'

/-- Lazy capture up to the first occurrence of the closing character: the (.*?) group
of the source regexes under the /s flag; none when no closing character follows. -/
def takeUpto (closeB : Char) : List Char → Option (List Char)
  | [] => none
  | c :: rest => if c == closeB then some [] else (takeUpto closeB rest).map (c :: ·)

/-- After a matched key literal: \s* : \s* openB, then the lazy capture. -/
def matchAfterKey (openB closeB : Char) (rest : List Char) : Option (List Char) :=
  match rest.dropWhile isJsSpace with
  | ':' :: t2 =>
    match t2.dropWhile isJsSpace with
    | c :: t3 => if c == openB then takeUpto closeB t3 else none
    | [] => none
  | _ => none

/-- Scan the content for the first position where the quoted key literal is followed by
\s* : \s* openB (.*?) closeB, returning the capture: the source regexes
"key"\s*:\s*\[(.*?)\] and "key"\s*:\s*\{(.*?)\} under /s. -/
def scanKeyCapture (key : List Char) (openB closeB : Char) : List Char → Option (List Char)
  | [] => none
  | c :: rest =>
    match (if strStarts key (c :: rest) then matchAfterKey openB closeB ((c :: rest).drop key.length)
           else none) with
    | some cap => some cap
    | none => scanKeyCapture key openB closeB rest

/-- The JSON.parse collaborator (a platform builtin, external to the repository):
the full-object parse used on the cleaned response and the three fragment parses
used by extractStructuredData. Universally quantified in every theorem. -/
structure JsonParser where
  full : String → Option PartialInsights
  taskArr : String → Option (List TaskImpact)
  strengthArr : String → Option (List UniqueStrength)
  strategiesObj : String → Option AdaptationStrategies

/-- extractStructuredData: start from the empty skeleton (empty arrays, empty strategy
lists, bare industry context) and overwrite a field only when its regex matches and the
re-wrapped fragment parses; every top-level field of the result is present. -/
def extractStructuredData (jp : JsonParser) (content : String) : PartialInsights :=
  let cs := content.toList
  let tasks : List TaskImpact :=
    match scanKeyCapture "\"taskSpecificImpacts\"".toList '[' ']' cs with
    | none => []
    | some cap => (jp.taskArr (String.mk ('[' :: cap ++ [']']))).getD []
  let strengths : List UniqueStrength :=
    match scanKeyCapture "\"uniqueStrengths\"".toList '[' ']' cs with
    | none => []
    | some cap => (jp.strengthArr (String.mk ('[' :: cap ++ [']']))).getD []
  let strategies : AdaptationStrategies :=
    match scanKeyCapture "\"adaptationStrategies\"".toList '\x7b' '\x7d' cs with
    | none => ⟨[], [], []⟩
    | some cap => (jp.strategiesObj (String.mk ('\x7b' :: cap ++ ['\x7d']))).getD ⟨[], [], []⟩
  { taskSpecificImpacts := some tasks
    uniqueStrengths := some strengths
    adaptationStrategies := some strategies
    industryContext := some ⟨none, none, none⟩
    researchCitations := some [] }

/-- Remove every occurrence of a nonempty token together with one optional following
newline: the replace(/tok\n?/g, "") calls of the source. -/
def stripTokAux (t0 : Char) (ts : List Char) : List Char → List Char
  | [] => []
  | c :: rest =>
    if strStarts (t0 :: ts) (c :: rest) then
      match h : rest.drop ts.length with
      | '\n' :: a2 => stripTokAux t0 ts a2
      | _ => stripTokAux t0 ts (rest.drop ts.length)
    else c :: stripTokAux t0 ts rest
termination_by l => l.length
decreasing_by
  · have h2 : (rest.drop ts.length).length ≤ rest.length := by
      simp [List.length_drop]
    have h3 : a2.length < (rest.drop ts.length).length := by
      rw [h]; simp
    simp only [List.length_cons]; omega
  · have h2 : (rest.drop ts.length).length ≤ rest.length := by
      simp [List.length_drop]
    simp only [List.length_cons]; omega
  · simp

/-- Remove every occurrence of the token (with one optional following newline). -/
def stripTok : List Char → List Char → List Char
  | [], l => l
  | t0 :: ts, l => stripTokAux t0 ts l

/-- Remove a comma that is followed by optional whitespace and a closing brace or
bracket: the replace(/,(\s*[}\]])/g, "$1") call of the source. -/
def stripTrailingCommas : List Char → List Char
  | [] => []
  | c :: rest =>
    if c == ',' &&
       (match rest.dropWhile isJsSpace with
        | b :: _ => b == '\x7d' || b == ']'
        | [] => false) then stripTrailingCommas rest
    else c :: stripTrailingCommas rest

/-- Cleaning applied to the raw model response before JSON.parse: strip markdown code
fences, then trailing commas. -/
def cleanContent (content : String) : String :=
  let cs := content.toList
  let fenceJson := "```json".toList
  let fence := "```".toList
  let c1 :=
    if strHas fenceJson cs then stripTok fence (stripTok fenceJson cs)
    else if strHas fence cs then stripTok fence cs
    else cs
  String.mk (stripTrailingCommas c1)

/-- Outcome of the external text-generation call: a thrown error, or a raw response body. -/
inductive ExternalResult where
  | failure
  | success (content : String)
deriving DecidableEq

/-- generateSingleAIInsight: on a thrown external call return the fallback insights; on
a response, clean and parse it, fall back to regex extraction when parsing fails, and
pass the result through validateAndEnrichInsights. Total: no failure propagates. -/
def generateSingleAIInsight (jp : JsonParser) (ext : ExternalResult)
    (features : DetailedFeatures) (assessment : AssessmentResult) : AIInsights :=
  match ext with
  | .failure => generateFallbackInsights features assessment
  | .success content =>
    let clean := cleanContent content
    match jp.full clean with
    | some insights => validateAndEnrichInsights insights features assessment
    | none => validateAndEnrichInsights (extractStructuredData jp content) features assessment

/-- Wrap to signed 32-bit: the ToInt32 conversion applied by the JavaScript bitwise
operators used in the cache-key hash. -/
def int32 (n : ℤ) : ℤ := (n + 2 ^ 31) % 2 ^ 32 - 2 ^ 31

/-- One step of the cache-key hash: hash = ((hash << 5) - hash) + charCode, then
hash = hash & hash (a ToInt32). -/
def hashStep (h : ℤ) (c : ℕ) : ℤ := int32 (int32 (h * 32) - h + c)

/-- The string hash used by generateCacheKey. -/
def jsHash (s : String) : ℤ := s.toList.foldl (fun h c => hashStep h c.toNat) 0

/-- generateCacheKey: hash of jobTitle | yearsExperience | managementLevel |
top-3 technicalSkills | content length, suffixed with the management level. -/
def generateCacheKey (content : String) (features : DetailedFeatures) : String :=
  let str := String.intercalate "|"
    [ features.jobTitle
      , toString features.yearsExperience
      , features.managementLevel
      , String.intercalate "-" (features.technicalSkills.take 3)
      , toString content.length ]
  "ai_" ++ toString (jsHash str) ++ "_" ++ features.managementLevel

/-- The insight cache: a JavaScript Map modelled as an insertion-ordered association
list (set on a fresh key appends, set on a present key updates in place, iteration
order is insertion order). Each entry carries the stored insights and its timestamp. -/
abbrev InsightCache : Type := List (String × AIInsights × ℤ)

/-- CACHE_TTL: one hour in milliseconds. -/
def CACHE_TTL : ℤ := 3600000

/-- MAX_CACHE_SIZE. -/
def MAX_CACHE_SIZE : ℕ := 100

/-- Map.get. -/
def cacheGet (k : String) (m : InsightCache) : Option (AIInsights × ℤ) :=
  (m.find? (fun e => e.1 == k)).map (·.2)

/-- Map.set: update in place when the key is present, append otherwise. -/
def cacheSet (k : String) (v : AIInsights × ℤ) : InsightCache → InsightCache
  | [] => [(k, v)]
  | e :: rest => if e.1 == k then (k, v) :: rest else e :: cacheSet k v rest

/-- Map.delete of one key. -/
def cacheEraseKey (k : String) (m : InsightCache) : InsightCache :=
  m.eraseP (fun e => e.1 == k)

/-- getCachedInsights: a hit within the TTL returns the stored object unchanged; an
entry strictly older than the TTL is deleted and reported as a miss. -/
def getCachedInsights (now : ℤ) (key : String) (m : InsightCache) :
    Option AIInsights × InsightCache :=
  match cacheGet key m with
  | none => (none, m)
  | some (d, ts) => if now - ts > CACHE_TTL then (none, cacheEraseKey key m) else (some d, m)

/-- setCachedInsights: when the cache has reached MAX_CACHE_SIZE entries, delete the
first (oldest-inserted) key, then set the new entry with the current timestamp. -/
def setCachedInsights (key : String) (insights : AIInsights) (now : ℤ) (m : InsightCache) :
    InsightCache :=
  let m1 :=
    if MAX_CACHE_SIZE ≤ m.length then
      match m.head? with
      | some e => cacheEraseKey e.1 m
      | none => m
    else m
  cacheSet key (insights, now) m1

/-- cleanupCache: lazily purge every entry strictly older than the TTL. -/
def cleanupCache (now : ℤ) (m : InsightCache) : InsightCache :=
  m.filter (fun e => !(now - e.2.2 > CACHE_TTL))

/-- Enhanced assessment result: the base result plus the attached insights (the
specificRiskFactors / protectiveFactors / roadmap fields are derived presentation
lists not referenced by any claim). -/
structure EnhancedResult where
  vulnerabilityIndex : VulnerabilityIndex
  occupations : List ProcessedOcc
  aiInsights : AIInsights
deriving DecidableEq, Repr

/-- EnhancedAIAssessmentEngine.assess, steps 1-3: run the pure base pipeline, look the
feature fingerprint up in the cache, and either return the literal cached insights or
attach the freshly generated ones (modelled by the generated argument, consumed only on
a miss) and store them. detailedFeatures is extractDetailedFeatures(input.content), a
pure function of the content, passed explicitly. -/
def enhancedAssess (input : AssessmentInput) (currentYear : ℤ)
    (detailedFeatures : DetailedFeatures) (generated : AIInsights) (now : ℤ)
    (cache : InsightCache) : EnhancedResult × InsightCache :=
  let baseAssessment := assess input currentYear
  let cacheKey := generateCacheKey input.content detailedFeatures
  match getCachedInsights now cacheKey cache with
  | (some cached, c2) =>
    ( { vulnerabilityIndex := baseAssessment.vulnerabilityIndex
        occupations := baseAssessment.occupations
        aiInsights := cached }, c2)
  | (none, c2) =>
    ( { vulnerabilityIndex := baseAssessment.vulnerabilityIndex
        occupations := baseAssessment.occupations
        aiInsights := generated }, setCachedInsights cacheKey generated now c2)

/-- A minimal AIInsights value, used as concrete cache payload in witnesses. -/
def emptyInsights : AIInsights :=
  { taskSpecificImpacts := []
    uniqueStrengths := []
    adaptationStrategies := ⟨[], [], []⟩
    industryContext := ⟨none, none, none⟩
    researchCitations := [] }

/-- A concrete cache filled to MAX_CACHE_SIZE entries. -/
def fullCache : InsightCache := List.replicate 100 ("x", emptyInsights, 0)

/-- A JSON.parse collaborator that fails on every input: the behaviour on content that
cannot be parsed at all. -/
def jpNone : JsonParser :=
  { full := fun _ => none
    taskArr := fun _ => none
    strengthArr := fun _ => none
    strategiesObj := fun _ => none }

/-- Concrete detailed features with one specific activity. -/
def sampleFeatures : DetailedFeatures :=
  { jobTitle := "Professional"
    yearsExperience := 3
    managementLevel := "individual"
    technicalSkills := []
    specificActivities := ["Responsible for data entry"]
    certifications := [] }

/-- A concrete base assessment result. -/
def sampleAssessment : AssessmentResult :=
  { vulnerabilityIndex :=
      { overall := 50
        breakdown := ⟨96, 50, 70, 50⟩
        riskLevel := .critical
        timeToImpact := 24
        confidence := 80
        timeline := generateTimelineStructure .critical "it_technology" }
    occupations := [] }

/-! ### Helper lemmas -/

/-- Math.round is monotone. -/
theorem jsRound_mono {x y : ℚ} (h : x ≤ y) : jsRound x ≤ jsRound y := by
  simp only [jsRound, round_eq]
  exact Int.floor_le_floor (by linarith)

/-- Math.round of a nonnegative rational is nonnegative. -/
theorem jsRound_nonneg {x : ℚ} (h : 0 ≤ x) : 0 ≤ jsRound x := by
  have h0 : jsRound (0 : ℚ) = 0 := by simp [jsRound]
  calc (0 : ℤ) = jsRound 0 := h0.symm
    _ ≤ jsRound x := jsRound_mono h

/-- Math.round of a rational at most 100 is at most 100. -/
theorem jsRound_le_100 {x : ℚ} (h : x ≤ 100) : jsRound x ≤ 100 := by
  have h0 : jsRound (100 : ℚ) = 100 := by simp [jsRound]
  calc jsRound x ≤ jsRound 100 := jsRound_mono h
    _ = 100 := h0

/-- The clamped final score is within [0, 100] for every input. -/
theorem calculateFinalScore_bounds (b : BaseVulnerability) (t a : ℚ) (p : ProtectionFactors) :
    0 ≤ calculateFinalScore b t a p ∧ calculateFinalScore b t a p ≤ 100 := by
  unfold calculateFinalScore
  constructor
  · exact le_min (by norm_num) (le_max_left 0 _)
  · exact min_le_left _ _

/-- A successful association-list lookup returns a stored value. -/
theorem tblLookup_mem {α : Type} {k : String} {v : α} :
    ∀ {l : List (String × α)}, tblLookup k l = some v → v ∈ l.map Prod.snd := by
  intro l
  induction l with
  | nil => intro h; simp [tblLookup] at h
  | cons e rest ih =>
    intro h
    simp only [tblLookup] at h
    by_cases hc : (e.1 == k) = true
    · rw [if_pos hc] at h
      injection h with h
      simp [h]
    · rw [if_neg hc] at h
      simpa using Or.inr (ih h)

/-- Bounds on a jsOrQ lookup given bounds on the default and every table value. -/
theorem jsOrQ_bounds {lo hi d : ℚ} (hd : lo ≤ d ∧ d ≤ hi) (l : List (String × ℚ))
    (hl : ∀ v ∈ l.map Prod.snd, lo ≤ v ∧ v ≤ hi) (k : String) :
    lo ≤ jsOrQ (tblLookup k l) d ∧ jsOrQ (tblLookup k l) d ≤ hi := by
  unfold jsOrQ
  rcases hk : tblLookup k l with _ | v
  · exact hd
  · have hv := hl v (tblLookup_mem hk)
    dsimp only
    split_ifs
    · exact hd
    · exact hv

/-- The automation probability is one of the table values over 100, hence in [0, 1]. -/
theorem getAutomationProbability_bounds (t : String) :
    0 ≤ getAutomationProbability t ∧ getAutomationProbability t ≤ 1 := by
  have hjs : ∀ k : String, 0 ≤ jsOrQ (tblLookup k AUTOMATION_PROBABILITIES) 50
      ∧ jsOrQ (tblLookup k AUTOMATION_PROBABILITIES) 50 ≤ 99 := by
    intro k
    refine jsOrQ_bounds (by norm_num) _ ?_ k
    intro v hv
    simp only [AUTOMATION_PROBABILITIES, List.map] at hv
    fin_cases hv <;> norm_num
  simp only [getAutomationProbability]
  refine ⟨div_nonneg (hjs _).1 (by norm_num), ?_⟩
  rw [div_le_one (by norm_num)]
  exact le_trans (hjs _).2 (by norm_num)

/-- The skill factor always lies between 1/6 and 4/5, whatever the ratings are. -/
theorem calculateSkillFactor_bounds (s : Skills) :
    1 / 6 ≤ calculateSkillFactor s ∧ calculateSkillFactor s ≤ 4 / 5 := by
  unfold calculateSkillFactor
  split_ifs <;> norm_num

/-- The geographic factor is a table value or the 0.3 default, hence in [1/10, 7/10]. -/
theorem geographicFactor_bounds (k : String) :
    1 / 10 ≤ jsOrQ (tblLookup k GEOGRAPHIC_FACTORS) 0.3
    ∧ jsOrQ (tblLookup k GEOGRAPHIC_FACTORS) 0.3 ≤ 7 / 10 := by
  refine jsOrQ_bounds (by norm_num) _ ?_ k
  intro v hv
  simp only [GEOGRAPHIC_FACTORS, List.map] at hv
  fin_cases hv <;> norm_num

/-- assessDemographicRisk only produces 0.5, 0.575 or 0.65, hence a value in [0, 1]. -/
theorem assessDemographicRisk_bounds (content : String) :
    0 ≤ assessDemographicRisk content ∧ assessDemographicRisk content ≤ 1 := by
  unfold assessDemographicRisk
  split_ifs <;> norm_num

/-- Membership in a descending insert. -/
theorem mem_insertByScoreDesc {x y : OccProfile × ℚ} {l : List (OccProfile × ℚ)} :
    y ∈ insertByScoreDesc x l ↔ y = x ∨ y ∈ l := by
  induction l with
  | nil => simp [insertByScoreDesc]
  | cons z zs ih =>
    unfold insertByScoreDesc
    split_ifs
    · simp
    · simp only [List.mem_cons, ih]
      tauto

/-- Membership is preserved by the descending insertion sort. -/
theorem mem_sortByScoreDesc {y : OccProfile × ℚ} :
    ∀ {l : List (OccProfile × ℚ)}, y ∈ sortByScoreDesc l ↔ y ∈ l := by
  intro l
  induction l with
  | nil => simp [sortByScoreDesc]
  | cons z zs ih => simp [sortByScoreDesc, mem_insertByScoreDesc, ih]

/-- Inserting into a descending-sorted list keeps it descending-sorted. -/
theorem pairwise_insertByScoreDesc {x : OccProfile × ℚ} {l : List (OccProfile × ℚ)}
    (h : l.Pairwise (fun a b => b.2 ≤ a.2)) :
    (insertByScoreDesc x l).Pairwise (fun a b => b.2 ≤ a.2) := by
  induction l with
  | nil => simp [insertByScoreDesc]
  | cons z zs ih =>
    rw [List.pairwise_cons] at h
    obtain ⟨hz, hzs⟩ := h
    unfold insertByScoreDesc
    split_ifs with hxz
    · rw [List.pairwise_cons]
      refine ⟨?_, ?_⟩
      · intro b hb
        rcases List.mem_cons.mp hb with rfl | hb
        · exact hxz
        · exact le_trans (hz b hb) hxz
      · rw [List.pairwise_cons]
        exact ⟨hz, hzs⟩
    · rw [List.pairwise_cons]
      refine ⟨?_, ih hzs⟩
      intro b hb
      rcases mem_insertByScoreDesc.mp hb with rfl | hb
      · linarith [not_le.mp hxz]
      · exact hz b hb

/-- The descending insertion sort produces a descending-sorted list. -/
theorem pairwise_sortByScoreDesc (l : List (OccProfile × ℚ)) :
    (sortByScoreDesc l).Pairwise (fun a b => b.2 ≤ a.2) := by
  induction l with
  | nil => simp [sortByScoreDesc]
  | cons z zs ih => exact pairwise_insertByScoreDesc ih

/-! ### Claim theorems -/

/-- C1: the final vulnerability score equals
clamp((baseVulnerability * timeFactor * adoptionRate) * (1 - protectionScore.total) * 100, 0, 100),
where protectionScore.total is the weighted sum education*0.4 + skill*0.3 +
geographic*0.15 + income*0.15 of the four table/threshold-derived sub-factors; this is
also exactly the (rounded) overall score the assess pipeline stores. -/
theorem C1_final_score_formula :
    (∀ f : FeatureRecord,
      (calculateProtectionScore f).total =
        (calculateProtectionScore f).education * 0.4 + (calculateProtectionScore f).skill * 0.3
        + (calculateProtectionScore f).geographic * 0.15 + (calculateProtectionScore f).income * 0.15
      ∧ (calculateProtectionScore f).education = jsOrQ (tblLookup f.education EDUCATION_FACTORS) 0.2
      ∧ (calculateProtectionScore f).skill = calculateSkillFactor f.skills
      ∧ (calculateProtectionScore f).geographic = jsOrQ (tblLookup f.location GEOGRAPHIC_FACTORS) 0.3
      ∧ (calculateProtectionScore f).income = jsOrQ (tblLookup f.income INCOME_FACTORS) 0.3)
    ∧ (∀ (b : BaseVulnerability) (t a : ℚ) (p : ProtectionFactors),
        calculateFinalScore b t a p = clampQ (b.total * t * a * (1 - p.total) * 100))
    ∧ (∀ (input : AssessmentInput) (year : ℤ),
        (assess input year).vulnerabilityIndex.overall =
          jsRound (clampQ ((calculateBaseVulnerability (extractFeatures input)).total
            * calculateTimeFactor (extractFeatures input).industry year
            * calculateAdoptionRate (extractFeatures input).industry
            * (1 - (calculateProtectionScore (extractFeatures input)).total) * 100))) := by
  refine ⟨fun f => ⟨rfl, rfl, rfl, rfl, rfl⟩, fun b t a p => rfl, fun input year => rfl⟩

/-- C2: riskLevel is a deterministic, monotonically non-decreasing step function of the
score with thresholds exactly at 35, 15 and 5; scores of exactly 35, 15, 5 map to
critical, high, medium, and 4.9 maps to low. -/
theorem C2_risk_thresholds :
    (∀ s : ℚ,
      (35 ≤ s → determineRiskLevel s = .critical)
      ∧ (15 ≤ s → s < 35 → determineRiskLevel s = .high)
      ∧ (5 ≤ s → s < 15 → determineRiskLevel s = .medium)
      ∧ (s < 5 → determineRiskLevel s = .low))
    ∧ (∀ s t : ℚ, s ≤ t → (determineRiskLevel s).rank ≤ (determineRiskLevel t).rank)
    ∧ determineRiskLevel 35 = .critical
    ∧ determineRiskLevel 15 = .high
    ∧ determineRiskLevel 5 = .medium
    ∧ determineRiskLevel (49 / 10) = .low := by
  refine ⟨fun s => ⟨?_, ?_, ?_, ?_⟩, fun s t hst => ?_, by norm_num [determineRiskLevel],
    by norm_num [determineRiskLevel], by norm_num [determineRiskLevel],
    by norm_num [determineRiskLevel]⟩
  · intro h; unfold determineRiskLevel; split_ifs with h1 <;> first | rfl | linarith
  · intro h h2; unfold determineRiskLevel; split_ifs <;> first | rfl | linarith
  · intro h h2; unfold determineRiskLevel; split_ifs <;> first | rfl | linarith
  · intro h; unfold determineRiskLevel; split_ifs <;> first | rfl | linarith
  · unfold determineRiskLevel
    split_ifs <;> simp [RiskLevel.rank] <;> linarith

/-- Witness for C2 at concrete scores. -/
theorem C2_risk_thresholds_witness :
    determineRiskLevel 20 = .high ∧ (determineRiskLevel 10).rank ≤ (determineRiskLevel 20).rank :=
  ⟨(C2_risk_thresholds.1 20).2.1 (by norm_num) (by norm_num),
   C2_risk_thresholds.2.1 10 20 (by norm_num)⟩

/-- C3: for every assessment input, the overall score and all four breakdown fields of
the produced VulnerabilityIndex lie in [0, 100]. -/
theorem C3_index_bounds (input : AssessmentInput) (year : ℤ) :
    (0 ≤ (assess input year).vulnerabilityIndex.overall
      ∧ (assess input year).vulnerabilityIndex.overall ≤ 100)
    ∧ (0 ≤ (assess input year).vulnerabilityIndex.breakdown.automation
      ∧ (assess input year).vulnerabilityIndex.breakdown.automation ≤ 100)
    ∧ (0 ≤ (assess input year).vulnerabilityIndex.breakdown.skillTransfer
      ∧ (assess input year).vulnerabilityIndex.breakdown.skillTransfer ≤ 100)
    ∧ (0 ≤ (assess input year).vulnerabilityIndex.breakdown.geographic
      ∧ (assess input year).vulnerabilityIndex.breakdown.geographic ≤ 100)
    ∧ (0 ≤ (assess input year).vulnerabilityIndex.breakdown.demographic
      ∧ (assess input year).vulnerabilityIndex.breakdown.demographic ≤ 100) := by
  have hover : (assess input year).vulnerabilityIndex.overall =
      jsRound (calculateFinalScore (calculateBaseVulnerability (extractFeatures input))
        (calculateTimeFactor (extractFeatures input).industry year)
        (calculateAdoptionRate (extractFeatures input).industry)
        (calculateProtectionScore (extractFeatures input))) := rfl
  have hauto : (assess input year).vulnerabilityIndex.breakdown.automation =
      jsRound (getAutomationProbability (extractFeatures input).occupationType * 100) := rfl
  have hskill : (assess input year).vulnerabilityIndex.breakdown.skillTransfer =
      jsRound (100 - calculateSkillFactor (extractFeatures input).skills * 100) := rfl
  have hgeo : (assess input year).vulnerabilityIndex.breakdown.geographic =
      jsRound (100 - jsOrQ (tblLookup (extractFeatures input).location GEOGRAPHIC_FACTORS) 0.3 * 100) := rfl
  have hdem : (assess input year).vulnerabilityIndex.breakdown.demographic =
      jsRound (assessDemographicRisk (jsToLower input.content) * 100) := rfl
  have hb := calculateFinalScore_bounds (calculateBaseVulnerability (extractFeatures input))
    (calculateTimeFactor (extractFeatures input).industry year)
    (calculateAdoptionRate (extractFeatures input).industry)
    (calculateProtectionScore (extractFeatures input))
  have ha := getAutomationProbability_bounds (extractFeatures input).occupationType
  have hs := calculateSkillFactor_bounds (extractFeatures input).skills
  have hg := geographicFactor_bounds (extractFeatures input).location
  have hd := assessDemographicRisk_bounds (jsToLower input.content)
  refine ⟨⟨?_, ?_⟩, ⟨?_, ?_⟩, ⟨?_, ?_⟩, ⟨?_, ?_⟩, ⟨?_, ?_⟩⟩
  · rw [hover]; exact jsRound_nonneg hb.1
  · rw [hover]; exact jsRound_le_100 hb.2
  · rw [hauto]; exact jsRound_nonneg (by nlinarith [ha.1])
  · rw [hauto]; exact jsRound_le_100 (by nlinarith [ha.2])
  · rw [hskill]; exact jsRound_nonneg (by nlinarith [hs.2])
  · rw [hskill]; exact jsRound_le_100 (by nlinarith [hs.1])
  · rw [hgeo]; exact jsRound_nonneg (by nlinarith [hg.2])
  · rw [hgeo]; exact jsRound_le_100 (by nlinarith [hg.1])
  · rw [hdem]; exact jsRound_nonneg (by nlinarith [hd.1])
  · rw [hdem]; exact jsRound_le_100 (by nlinarith [hd.2])

/-- C4: the extracted task composition sums to at most 100 for every content, and when
the raw accumulated points exceed 100 every component is rescaled by one common positive
factor (which preserves all pairwise ratios). -/
theorem C4_task_composition (content : String) :
    (analyzeTaskComposition content).sum ≤ 100
    ∧ ((rawTaskComposition content).sum > 100 →
        ∃ k : ℚ, 0 < k ∧ analyzeTaskComposition content = (rawTaskComposition content).scale k) := by
  have hsum : ∀ (t : TaskComposition) (k : ℚ), (t.scale k).sum = t.sum * k := by
    intro t k
    simp only [TaskComposition.scale, TaskComposition.sum]
    ring
  by_cases h : (rawTaskComposition content).sum > 100
  · have hpos : (0 : ℚ) < (rawTaskComposition content).sum := by linarith
    have heq : analyzeTaskComposition content =
        (rawTaskComposition content).scale (100 / (rawTaskComposition content).sum) := by
      unfold analyzeTaskComposition
      rw [if_pos h]
    constructor
    · rw [heq, hsum]
      rw [mul_div_cancel₀ _ (ne_of_gt hpos)]
    · intro _
      exact ⟨100 / (rawTaskComposition content).sum, by positivity, heq⟩
  · have heq : analyzeTaskComposition content = rawTaskComposition content := by
      unfold analyzeTaskComposition
      rw [if_neg h]
    constructor
    · rw [heq]; linarith [not_lt.mp h]
    · intro hc; exact absurd hc h

/-- Witness for C4 at a content whose raw keyword points total 260. -/
theorem C4_task_composition_witness :
    (rawTaskComposition "repetitive data entry design develop team customer physical operate analyze problem").sum > 100
    ∧ (analyzeTaskComposition "repetitive data entry design develop team customer physical operate analyze problem").sum ≤ 100
    ∧ ∃ k : ℚ, 0 < k ∧
        analyzeTaskComposition "repetitive data entry design develop team customer physical operate analyze problem" =
          (rawTaskComposition "repetitive data entry design develop team customer physical operate analyze problem").scale k := by
  refine ⟨by norm_num +decide [rawTaskComposition, TaskComposition.sum],
    (C4_task_composition "repetitive data entry design develop team customer physical operate analyze problem").1,
    (C4_task_composition "repetitive data entry design develop team customer physical operate analyze problem").2
      (by norm_num +decide [rawTaskComposition, TaskComposition.sum])⟩

/-- C5: the occupation matcher returns occupations sorted descending by match score,
truncated to limit, retaining only scores above 0.2; each score is the clamped weighted
overlap sum; a no-match content yields the empty list; and content exactly equal to the
first catalog title retains that occupation with score 49/150 > 0.2 in the returned
top-N. -/
theorem C5_matcher :
    (∀ (content : String) (limit : ℕ),
      (findMatchingScored content limit).Pairwise (fun a b => b.2 ≤ a.2)
      ∧ (findMatchingScored content limit).length ≤ limit
      ∧ (∀ m ∈ findMatchingScored content limit,
          m.2 > 0.2 ∧ m.2 = calculateMatchScore (lowerStr content) m.1 ∧ m.1 ∈ occupationsData)
      ∧ findMatchingOccupations content limit =
          (findMatchingScored content limit).map
            (fun m => { profile := m.1, matchScore := jsRound (m.2 * 100) }))
    ∧ (∀ (content : List Char) (occupation : OccProfile),
        calculateMatchScore content occupation = min 1
          (((matchCounts content occupation).titleMatches : ℚ)
              / ((matchCounts content occupation).titleWordCount : ℚ) * 0.3
            + ((matchCounts content occupation).descMatches : ℚ)
              / (max 1 (matchCounts content occupation).descWordCount : ℕ) * 0.2
            + ((matchCounts content occupation).skillMatches : ℚ)
              / (max 1 (matchCounts content occupation).skillCount : ℕ) * 0.3
            + ((matchCounts content occupation).knowledgeMatches : ℚ)
              / (max 1 (matchCounts content occupation).knowledgeCount : ℕ) * 0.2))
    ∧ findMatchingScored "zzzz qqqq" 5 = []
    ∧ findMatchingScored "Computer Systems Analysts" 5 = [(csaOccupation, 49 / 150)] := by
  have hcsa : calculateMatchScore (lowerStr "Computer Systems Analysts") csaOccupation = 49 / 150 := by
    simp only [calculateMatchScore]
    rw [show matchCounts (lowerStr "Computer Systems Analysts") csaOccupation =
      ⟨3, 3, 2, 15, 0, 4, 0, 3⟩ from by decide]
    norm_num
  have hpr : calculateMatchScore (lowerStr "Computer Systems Analysts") prOccupation = 0 := by
    simp only [calculateMatchScore]
    rw [show matchCounts (lowerStr "Computer Systems Analysts") prOccupation =
      ⟨0, 3, 0, 12, 0, 4, 0, 3⟩ from by decide]
    norm_num
  have hna : calculateMatchScore (lowerStr "Computer Systems Analysts") naOccupation = 0 := by
    simp only [calculateMatchScore]
    rw [show matchCounts (lowerStr "Computer Systems Analysts") naOccupation =
      ⟨0, 2, 0, 9, 0, 3, 0, 3⟩ from by decide]
    norm_num
  have hz1 : calculateMatchScore (lowerStr "zzzz qqqq") csaOccupation = 0 := by
    simp only [calculateMatchScore]
    rw [show matchCounts (lowerStr "zzzz qqqq") csaOccupation =
      ⟨0, 3, 0, 15, 0, 4, 0, 3⟩ from by decide]
    norm_num
  have hz2 : calculateMatchScore (lowerStr "zzzz qqqq") prOccupation = 0 := by
    simp only [calculateMatchScore]
    rw [show matchCounts (lowerStr "zzzz qqqq") prOccupation =
      ⟨0, 3, 0, 12, 0, 4, 0, 3⟩ from by decide]
    norm_num
  have hz3 : calculateMatchScore (lowerStr "zzzz qqqq") naOccupation = 0 := by
    simp only [calculateMatchScore]
    rw [show matchCounts (lowerStr "zzzz qqqq") naOccupation =
      ⟨0, 2, 0, 9, 0, 3, 0, 3⟩ from by decide]
    norm_num
  refine ⟨fun content limit => ⟨?_, ?_, ?_, rfl⟩, fun content occupation => rfl, ?_, ?_⟩
  · exact List.Pairwise.sublist (List.take_sublist _ _) (pairwise_sortByScoreDesc _)
  · exact List.length_take_le _ _
  · intro m hm
    have h1 : m ∈ sortByScoreDesc ((occupationsData.map
        (fun o => (o, calculateMatchScore (lowerStr content) o))).filter (fun m => m.2 > 0.2)) :=
      List.take_subset _ _ hm
    have h2 := mem_sortByScoreDesc.mp h1
    obtain ⟨h3, h4⟩ := List.mem_filter.mp h2
    obtain ⟨o, ho, rfl⟩ := List.mem_map.mp h3
    exact ⟨of_decide_eq_true h4, rfl, ho⟩
  · unfold findMatchingScored
    simp only [occupationsData, List.map_cons, List.map_nil]
    rw [hz1, hz2, hz3]
    norm_num [List.filter, sortByScoreDesc, List.take]
  · unfold findMatchingScored
    simp only [occupationsData, List.map_cons, List.map_nil]
    rw [hcsa, hpr, hna]
    norm_num [List.filter, sortByScoreDesc, insertByScoreDesc, List.take]

/-- Witness for C5: the retained-score facts discharged at the exact-title content, and
the truncation bound at the no-match content. -/
theorem C5_matcher_witness :
    ((csaOccupation, (49 / 150 : ℚ)).2 > 0.2
      ∧ (csaOccupation, (49 / 150 : ℚ)).2 =
          calculateMatchScore (lowerStr "Computer Systems Analysts") (csaOccupation, (49 / 150 : ℚ)).1
      ∧ (csaOccupation, (49 / 150 : ℚ)).1 ∈ occupationsData)
    ∧ (findMatchingScored "zzzz qqqq" 5).length ≤ 5 :=
  ⟨(C5_matcher.1 "Computer Systems Analysts" 5).2.2.1 (csaOccupation, 49 / 150)
      (C5_matcher.2.2.2 ▸ List.mem_singleton.mpr rfl),
   (C5_matcher.1 "zzzz qqqq" 5).2.1⟩

/-- C7: short- and medium-term likelihoods are fixed constants per tier, the low tier
reuses exactly the medium (else-branch) constants, and the single long-term period has
likelihood 95 for every tier. -/
theorem C7_timeline_constants :
    (∀ ind : String, generateTimelineStructure .low ind = generateTimelineStructure .medium ind)
    ∧ (∀ (r : RiskLevel) (ind : String),
        ((generateTimelineStructure r ind).longTerm.map (·.likelihood)) = [95])
    ∧ (∀ ind : String,
        ((generateTimelineStructure .critical ind).shortTerm.map (·.likelihood)) = [85, 90]
        ∧ ((generateTimelineStructure .critical ind).mediumTerm.map (·.likelihood)) = [95, 98])
    ∧ (∀ ind : String,
        ((generateTimelineStructure .high ind).shortTerm.map (·.likelihood)) = [65, 75]
        ∧ ((generateTimelineStructure .high ind).mediumTerm.map (·.likelihood)) = [85, 90])
    ∧ (∀ ind : String,
        ((generateTimelineStructure .medium ind).shortTerm.map (·.likelihood)) = [40, 50]
        ∧ ((generateTimelineStructure .medium ind).mediumTerm.map (·.likelihood)) = [60, 70]
        ∧ ((generateTimelineStructure .low ind).shortTerm.map (·.likelihood)) = [40, 50]
        ∧ ((generateTimelineStructure .low ind).mediumTerm.map (·.likelihood)) = [60, 70]) := by
  refine ⟨fun ind => rfl, fun r ind => ?_, fun ind => ⟨rfl, rfl⟩, fun ind => ⟨rfl, rfl⟩,
    fun ind => ⟨rfl, rfl, rfl, rfl⟩⟩
  cases r <;> rfl

/-- A set key is found by a subsequent get, whatever the cache held before. -/
theorem cacheGet_cacheSet_self (k : String) (v : AIInsights × ℤ) :
    ∀ m : InsightCache, cacheGet k (cacheSet k v m) = some v := by
  intro m
  induction m with
  | nil => simp [cacheSet, cacheGet, List.find?]
  | cons e rest ih =>
    unfold cacheSet
    split_ifs with he
    · simp [cacheGet, List.find?]
    · have hne : (e.1 == k) = false := by
        simp only [Bool.not_eq_true] at he
        exact he
      simp only [cacheGet, List.find?, hne]
      exact ih

/-- Setting grows the cache by at most one entry. -/
theorem cacheSet_length_le (k : String) (v : AIInsights × ℤ) :
    ∀ m : InsightCache, (cacheSet k v m).length ≤ m.length + 1 := by
  intro m
  induction m with
  | nil => simp [cacheSet]
  | cons e rest ih =>
    unfold cacheSet
    split_ifs
    · simp
    · simpa using Nat.succ_le_succ ih

/-- Setting an absent key appends the new entry at the end (insertion order). -/
theorem cacheSet_of_get_none (k : String) (v : AIInsights × ℤ) :
    ∀ {m : InsightCache}, cacheGet k m = none → cacheSet k v m = m ++ [(k, v)] := by
  intro m
  induction m with
  | nil => intro _; rfl
  | cons e rest ih =>
    intro h
    by_cases he : (e.1 == k) = true
    · exfalso
      simp [cacheGet, List.find?, he] at h
    · have hne : (e.1 == k) = false := by
        simp only [Bool.not_eq_true] at he
        exact he
      have hrest : cacheGet k rest = none := by
        simpa [cacheGet, List.find?, hne] using h
      unfold cacheSet
      rw [if_neg (by simp [hne]), ih hrest]
      rfl

/-- Deleting the key of the head entry removes exactly the head. -/
theorem cacheEraseKey_head (e : String × AIInsights × ℤ) (rest : InsightCache) :
    cacheEraseKey e.1 (e :: rest) = rest := by
  simp [cacheEraseKey, List.eraseP_cons]

/-- C6: with identical input (hence an identical feature fingerprint and cache key) and
no expiry between the calls, a second enhanced assessment returns the identical
vulnerability index (the base pipeline is a pure function of input and year) and its
insights are the literal object stored by the first call, not the freshly generated
one. -/
theorem C6_idempotent_cached_insights
    (input : AssessmentInput) (year : ℤ) (df : DetailedFeatures)
    (gen1 gen2 : AIInsights) (t1 t2 : ℤ) (c0 : InsightCache)
    (hmiss : cacheGet (generateCacheKey input.content df) c0 = none)
    (httl : t2 - t1 ≤ CACHE_TTL) :
    (enhancedAssess input year df gen2 t2
        (enhancedAssess input year df gen1 t1 c0).2).1.aiInsights = gen1
    ∧ (enhancedAssess input year df gen2 t2
        (enhancedAssess input year df gen1 t1 c0).2).1.aiInsights =
      (enhancedAssess input year df gen1 t1 c0).1.aiInsights
    ∧ (enhancedAssess input year df gen2 t2
        (enhancedAssess input year df gen1 t1 c0).2).1.vulnerabilityIndex =
      (enhancedAssess input year df gen1 t1 c0).1.vulnerabilityIndex
    ∧ (enhancedAssess input year df gen2 t2
        (enhancedAssess input year df gen1 t1 c0).2).1.vulnerabilityIndex =
      (assess input year).vulnerabilityIndex := by
  have h1 : enhancedAssess input year df gen1 t1 c0 =
      ( { vulnerabilityIndex := (assess input year).vulnerabilityIndex
          occupations := (assess input year).occupations
          aiInsights := gen1 },
        setCachedInsights (generateCacheKey input.content df) gen1 t1 c0) := by
    simp only [enhancedAssess, getCachedInsights, hmiss]
  have hget2 : getCachedInsights t2 (generateCacheKey input.content df)
      (setCachedInsights (generateCacheKey input.content df) gen1 t1 c0) =
      (some gen1, setCachedInsights (generateCacheKey input.content df) gen1 t1 c0) := by
    simp only [getCachedInsights, setCachedInsights, cacheGet_cacheSet_self]
    rw [if_neg (not_lt.mpr httl)]
  have h2 : enhancedAssess input year df gen2 t2
      (setCachedInsights (generateCacheKey input.content df) gen1 t1 c0) =
      ( { vulnerabilityIndex := (assess input year).vulnerabilityIndex
          occupations := (assess input year).occupations
          aiInsights := gen1 },
        setCachedInsights (generateCacheKey input.content df) gen1 t1 c0) := by
    simp only [enhancedAssess]
    rw [hget2]
  rw [h1, h2]
  exact ⟨rfl, rfl, rfl, rfl⟩

/-- Witness for C6 against the empty cache at concrete times. -/
theorem C6_idempotent_cached_insights_witness :
    (enhancedAssess ⟨"software developer with a degree", none⟩ 2025 sampleFeatures emptyInsights 100
        (enhancedAssess ⟨"software developer with a degree", none⟩ 2025 sampleFeatures
          emptyInsights 0 []).2).1.aiInsights = emptyInsights :=
  (C6_idempotent_cached_insights ⟨"software developer with a degree", none⟩ 2025 sampleFeatures
    emptyInsights emptyInsights 0 100 [] rfl (by norm_num [CACHE_TTL])).1

/-- C8: the cache never exceeds MAX_CACHE_SIZE entries; inserting a new key at capacity
evicts exactly the oldest-inserted entry; and a lookup of an entry strictly older than
the TTL deletes it and reports a miss. -/
theorem C8_cache_bound :
    (∀ (m : InsightCache) (k : String) (v : AIInsights) (now : ℤ),
      m.length ≤ MAX_CACHE_SIZE → (setCachedInsights k v now m).length ≤ MAX_CACHE_SIZE)
    ∧ (∀ (m : InsightCache) (k : String) (v : AIInsights) (now : ℤ),
        m.length = MAX_CACHE_SIZE → cacheGet k m = none →
          setCachedInsights k v now m = m.tail ++ [(k, v, now)])
    ∧ (∀ (m : InsightCache) (k : String) (now : ℤ) (d : AIInsights) (ts : ℤ),
        cacheGet k m = some (d, ts) → now - ts > CACHE_TTL →
          getCachedInsights now k m = (none, cacheEraseKey k m)) := by
  refine ⟨?_, ?_, ?_⟩
  · intro m k v now hle
    unfold setCachedInsights
    split_ifs with hge
    · rcases m with _ | ⟨e, rest⟩
      · simp [MAX_CACHE_SIZE] at hge
      · dsimp only [List.head?]
        rw [cacheEraseKey_head]
        have hr : rest.length + 1 ≤ MAX_CACHE_SIZE := by
          simpa using hle
        calc (cacheSet k (v, now) rest).length ≤ rest.length + 1 := cacheSet_length_le k (v, now) rest
          _ ≤ MAX_CACHE_SIZE := hr
    · calc (cacheSet k (v, now) m).length ≤ m.length + 1 := cacheSet_length_le k (v, now) m
        _ ≤ MAX_CACHE_SIZE := by
          have h2 := not_le.mp hge
          simp only [MAX_CACHE_SIZE] at h2 ⊢
          omega
  · intro m k v now hlen hget
    rcases m with _ | ⟨e, rest⟩
    · simp [MAX_CACHE_SIZE] at hlen
    · unfold setCachedInsights
      rw [if_pos (le_of_eq hlen.symm)]
      dsimp only [List.head?]
      rw [cacheEraseKey_head]
      have he : (e.1 == k) = false := by
        by_cases hc : (e.1 == k) = true
        · exfalso; simp [cacheGet, List.find?, hc] at hget
        · simpa using hc
      have hrest : cacheGet k rest = none := by
        simpa [cacheGet, List.find?, he] using hget
      rw [cacheSet_of_get_none k (v, now) hrest]
      rfl
  · intro m k now d ts hget httl
    unfold getCachedInsights
    rw [hget]
    dsimp only
    rw [if_pos httl]

/-- Witness for C8 at a full 100-entry cache and an expired entry. -/
theorem C8_cache_bound_witness :
    (setCachedInsights "k" emptyInsights 7 fullCache).length ≤ MAX_CACHE_SIZE
    ∧ setCachedInsights "k" emptyInsights 7 fullCache = fullCache.tail ++ [("k", emptyInsights, 7)]
    ∧ getCachedInsights 5000000 "e" [("e", emptyInsights, 0)] =
        (none, cacheEraseKey "e" [("e", emptyInsights, 0)]) :=
  ⟨C8_cache_bound.1 fullCache "k" emptyInsights 7 (by simp [fullCache, MAX_CACHE_SIZE]),
   C8_cache_bound.2.1 fullCache "k" emptyInsights 7 (by simp [fullCache, MAX_CACHE_SIZE])
     (by decide),
   C8_cache_bound.2.2 [("e", emptyInsights, 0)] "e" 5000000 emptyInsights 0 rfl
     (by norm_num [CACHE_TTL])⟩

/-- C9 counterexample: for the same features (with one specific activity) and the same
base assessment, an unparseable external response and a thrown external call yield
different insights, so the recovered insights are not one deterministic synthesis from
the extracted features and the base assessment: the unparseable-response path keeps the
tolerant extractor's empty fields instead of the feature-derived fallback. -/
theorem C9_fallback_counterexample :
    generateSingleAIInsight jpNone (.success "service temporarily unavailable")
        sampleFeatures sampleAssessment
      ≠ generateSingleAIInsight jpNone .failure sampleFeatures sampleAssessment := by
  decide

/-- C9 amended: a thrown external call yields exactly the fallback insights synthesized
from the features and base assessment; an unparseable response still yields a result
(never a propagated failure) with all five top-level fields present, namely the
tolerant extraction passed through validateAndEnrichInsights, whose present-but-empty
fields are kept rather than replaced by feature-derived defaults. -/
theorem C9_fallback_amended
    (jp : JsonParser) (features : DetailedFeatures) (assessment : AssessmentResult)
    (content : String) :
    generateSingleAIInsight jp .failure features assessment =
      generateFallbackInsights features assessment
    ∧ (jp.full (cleanContent content) = none →
        generateSingleAIInsight jp (.success content) features assessment =
          validateAndEnrichInsights (extractStructuredData jp content) features assessment)
    ∧ (extractStructuredData jp content).taskSpecificImpacts.isSome = true
    ∧ (extractStructuredData jp content).uniqueStrengths.isSome = true
    ∧ (extractStructuredData jp content).adaptationStrategies.isSome = true
    ∧ (extractStructuredData jp content).industryContext.isSome = true
    ∧ (extractStructuredData jp content).researchCitations.isSome = true := by
  refine ⟨rfl, ?_, rfl, rfl, rfl, rfl, rfl⟩
  intro h
  simp only [generateSingleAIInsight, h]

/-- Witness for C9 amended at the failing JSON parser and a concrete unparseable body. -/
theorem C9_fallback_amended_witness :
    generateSingleAIInsight jpNone (.success "service temporarily unavailable")
        sampleFeatures sampleAssessment =
      validateAndEnrichInsights
        (extractStructuredData jpNone "service temporarily unavailable")
        sampleFeatures sampleAssessment :=
  (C9_fallback_amended jpNone sampleFeatures sampleAssessment
    "service temporarily unavailable").2.1 rfl

/-- C10: the occupations of the base assess result come from the fixed in-memory sample
table keyed by the extracted occupationType: a one-element list for exactly the keys
administrative_clerical, software_development and healthcare_direct, and empty for every
other key; the catalog scorer findMatchingOccupations plays no part in assess. -/
theorem C10_sample_occupations :
    (∀ (input : AssessmentInput) (year : ℤ),
      (assess input year).occupations = occupationSamples (extractFeatures input).occupationType)
    ∧ (∀ t : String,
        (t = "administrative_clerical" ∨ t = "software_development" ∨ t = "healthcare_direct") →
          (occupationSamples t).length = 1)
    ∧ (∀ t : String,
        ¬(t = "administrative_clerical" ∨ t = "software_development" ∨ t = "healthcare_direct") →
          occupationSamples t = []) := by
  refine ⟨fun input year => rfl, fun t ht => ?_, fun t ht => ?_⟩
  · rcases ht with h | h | h <;> subst h <;> rfl
  · push_neg at ht
    obtain ⟨h1, h2, h3⟩ := ht
    unfold occupationSamples
    split_ifs <;> first | rfl | exact absurd (by assumption) (by assumption)

/-- Witness for C10 at a sampled key and an unsampled key. -/
theorem C10_sample_occupations_witness :
    (occupationSamples "software_development").length = 1 ∧ occupationSamples "legal" = [] :=
  ⟨C10_sample_occupations.2.1 "software_development" (Or.inr (Or.inl rfl)),
   C10_sample_occupations.2.2 "legal" (by decide)⟩

end Adence
